import Mathlib

/-!
Verification of the resotoclient HTTP client (resotoclient/__init__.py).

The development shallowly embeds the client: Python dictionaries become
association lists, the HTTP server becomes an explicit function from
requests to responses, and Python exceptions become an `Except` error
channel. Each client method is translated statement by statement from
the source; parts of the repository that the source imports but that are
not part of the file (the credential signer `jwt_utils`, the trust
anchor resolver `ca`, and the payload serializer `graph_to_json`) are
modelled from the specification and marked as such in their doc
comments.
-/

/-- JSON values, the payload type of the wire protocol. -/
inductive JsValue where
  | null : JsValue
  | bool : Bool → JsValue
  | num : Int → JsValue
  | str : String → JsValue
  | arr : List JsValue → JsValue
  | obj : List (String × JsValue) → JsValue

/-- A JSON object, as in the source type alias `JsObject`. -/
abbrev JsObject := List (String × JsValue)

/-- Python exceptions that the embedded code can raise. -/
inductive PyError where
  | attributeError : String → PyError
  | typeError : String → PyError
  | keyError : String → PyError
  | deserializationError : String → PyError
deriving DecidableEq, Repr

/-- Header and query parameter collections (Python dictionaries of
strings, kept as insertion ordered association lists). -/
abbrev Headers := List (String × String)

/-- Query parameter dictionary. -/
abbrev Params := List (String × String)

/-- HTTP verbs of the transport layer. -/
inductive Verb where
  | get : Verb
  | post : Verb
  | put : Verb
  | patch : Verb
  | delete : Verb
deriving DecidableEq, Repr

/-- Request body: either absent or a JSON payload (the embedded methods
only ever pass a json keyword to the session call). -/
inductive Body where
  | noBody : Body
  | jsonBody : JsValue → Body

/-- An outgoing HTTP request as issued by a `requests` session call. -/
structure Request where
  verb : Verb
  url : String
  headers : Headers
  params : Option Params
  body : Body

/-- An HTTP response as seen by the client: status code, text body,
response headers and the parsed JSON body (`response.json()`). -/
structure Response where
  status_code : Nat
  text : String
  headers : Headers
  body : JsValue

/-- The remote service, modelled as a function from requests to
responses. Quantifying over `Server` quantifies over every possible
remote behaviour, in particular over every response status code. -/
abbrev Server := Request → Response

/-- One round trip: the request the transport issued and the response
the server returned for it. The source returns only the response; the
request is kept alongside so that theorems can speak about what was
put on the wire. -/
structure HttpExchange where
  request : Request
  response : Response

/-- Python `dict` insertion of one key: replace the value in place when
the key is present, otherwise append the pair. -/
def dictInsert (d : List (String × String)) (k v : String) : List (String × String) :=
  if d.any (fun kv => kv.1 = k) then
    d.map (fun kv => if kv.1 = k then (k, v) else kv)
  else d ++ [(k, v)]

/-- Python `dict.update`: fold the overriding entries into the base
dictionary, later entries winning on equal keys. -/
def dictUpdate (d : List (String × String)) (ov : List (String × String)) : List (String × String) :=
  ov.foldl (fun acc kv => dictInsert acc kv.1 kv.2) d

/-- ASCII lower casing of one character, the case folding relevant to
HTTP header names. -/
def lowerChar (c : Char) : Char :=
  if 65 ≤ c.toNat ∧ c.toNat ≤ 90 then Char.ofNat (c.toNat + 32) else c

/-- Case insensitive equality of header names. -/
def ciKeyEq (a b : String) : Bool :=
  (a.data.map lowerChar) = (b.data.map lowerChar)

/-- Case insensitive header lookup, as performed by the
`CaseInsensitiveDict` holding `response.headers` in the requests
library. -/
def ciLookup (hs : Headers) (k : String) : Option String :=
  (hs.find? (fun kv => ciKeyEq kv.1 k)).map (fun kv => kv.2)

/-- The GraphUpdate dataclass: counts of created, updated and deleted
nodes and edges (the field `nodes_updates` keeps the spelling of the
source). -/
structure GraphUpdate where
  nodes_created : Int
  nodes_updates : Int
  nodes_deleted : Int
  edges_created : Int
  edges_updated : Int
  edges_deleted : Int
deriving DecidableEq, Repr

/-- Integer field lookup inside a JSON object, used by the model of
`jsons.load`. -/
def getIntField (fields : List (String × JsValue)) (k : String) : Option Int :=
  match fields.find? (fun kv => kv.1 = k) with
  | some (_, JsValue.num n) => some n
  | _ => none

/-- Model of `jsons.load(response.json(), GraphUpdate)`: deserialize a
JSON object into the six integer count fields of `GraphUpdate`, failing
on any missing or non integer field. -/
def loadGraphUpdate (v : JsValue) : Except PyError GraphUpdate :=
  match v with
  | JsValue.obj fields =>
    match getIntField fields "nodes_created", getIntField fields "nodes_updates",
          getIntField fields "nodes_deleted", getIntField fields "edges_created",
          getIntField fields "edges_updated", getIntField fields "edges_deleted" with
    | some a, some b, some c, some d, some e, some f =>
      Except.ok { nodes_created := a, nodes_updates := b, nodes_deleted := c,
                  edges_created := d, edges_updated := e, edges_deleted := f }
    | _, _, _, _, _, _ => Except.error (PyError.deserializationError "GraphUpdate")
  | _ => Except.error (PyError.deserializationError "GraphUpdate")

/-- Modelled from the spec: the Credential Signer
(`resotoclient.jwt_utils.encode_jwt_to_headers`, imported by the source
but not included in src) derives a deterministic authentication token
from the claims object and the shared secret. The spec requires a pure
function of (secret, claims) producing header entries the server can
verify. -/
def signToken (claims : List (String × String)) (psk : String) : String :=
  String.intercalate "." (claims.map (fun kv => kv.1 ++ "=" ++ kv.2)) ++ "|" ++ psk

/-- Modelled from the spec: `encode_jwt_to_headers(headers, claims, psk)`
merges the signed authentication entries derived from the shared secret
and the claims object into the given header set. -/
def encode_jwt_to_headers (headers : Headers) (claims : List (String × String)) (psk : String) : Headers :=
  headers ++ [("Authorization", "Bearer " ++ signToken claims psk)]

/-- The client state: the three attributes `__init__` can assign.
`ca_cert_path = none` models the attribute never having been assigned
(which is what happens for a non https endpoint), so that reading it
raises `AttributeError` as in Python. -/
structure ResotoClient where
  base_url : String
  psk : Option String
  ca_cert_path : Option String
deriving DecidableEq, Repr

/-- Python `str.startswith`, expressed on the character sequence of the
string. -/
def strStartsWith (s pre : String) : Bool :=
  pre.data.isPrefixOf s.data

/-- The trust anchor resolver signature: `ca.load_ca_cert(uri, psk)`
returns the filesystem path of the fetched CA certificate. The module
`resotoclient.ca` is not included in src, so the resolver is passed as
an abstract parameter to construction. -/
abbrev CaResolver := String → Option String → String

/-- `ResotoClient.__init__`: store the endpoint and shared secret, and
resolve the trust anchor only when the URL starts with https. For any
other URL the attribute `ca_cert_path` is never assigned. -/
def ResotoClient.init (url : String) (psk : Option String) (load_ca_cert : CaResolver) : ResotoClient :=
  { base_url := url, psk := psk,
    ca_cert_path := if strStartsWith url "https" then some (load_ca_cert url psk) else none }

/-- The base header set built by `_headers`. -/
def baseHeaders : Headers :=
  [("Content-type", "application/json"), ("Accept", "application/x-ndjson")]

/-- `ResotoClient._headers`: the base content type and accept entries,
plus the signed entries when the shared secret is truthy (configured
and not the empty string). -/
def ResotoClient._headers (c : ResotoClient) : Headers :=
  match c.psk with
  | none => baseHeaders
  | some s => if s = "" then baseHeaders else encode_jwt_to_headers baseHeaders [] s

/-- Session configuration produced by `_prepare_session`: the optional
peer verification path and the session header set. -/
structure SessionConfig where
  verify : Option String
  headers : Headers

/-- `ResotoClient._prepare_session`: reading `self.ca_cert_path` raises
`AttributeError` when the attribute was never assigned; when present and
truthy it becomes the peer verification path; the session headers are
set from `_headers`. -/
def ResotoClient._prepare_session (c : ResotoClient) : Except PyError SessionConfig :=
  match c.ca_cert_path with
  | none => Except.error (PyError.attributeError "ResotoClient object has no attribute ca_cert_path")
  | some path =>
    Except.ok { verify := if path = "" then none else some path, headers := c._headers }

/-- `ResotoClient._get`: prepare a fresh session, then call
`s.headers.update()` with no argument, which ignores the caller supplied
`headers` parameter, and issue a GET with the given query parameters.
The response of the server is returned unchanged. -/
def ResotoClient._get (c : ResotoClient) (path : String) (params : Option Params) (headers : Option Headers) (srv : Server) : Except PyError HttpExchange :=
  match c._prepare_session with
  | Except.error e => Except.error e
  | Except.ok cfg =>
    let _unused := headers
    let req : Request :=
      { verb := Verb.get, url := c.base_url ++ path, headers := cfg.headers,
        params := params, body := Body.noBody }
    Except.ok { request := req, response := srv req }

/-- `ResotoClient._post`: prepare a fresh session, merge the caller
supplied headers last via `s.headers.update(headers or ...)`, and issue
a POST with the JSON body and query parameters. -/
def ResotoClient._post (c : ResotoClient) (path : String) (json : JsValue) (params : Option Params) (headers : Option Headers) (srv : Server) : Except PyError HttpExchange :=
  match c._prepare_session with
  | Except.error e => Except.error e
  | Except.ok cfg =>
    let req : Request :=
      { verb := Verb.post, url := c.base_url ++ path,
        headers := dictUpdate cfg.headers (headers.getD []),
        params := params, body := Body.jsonBody json }
    Except.ok { request := req, response := srv req }

/-- `ResotoClient._put`: prepare a fresh session and issue a PUT with
the JSON body and query parameters (no extra header parameter). -/
def ResotoClient._put (c : ResotoClient) (path : String) (json : JsValue) (params : Option Params) (srv : Server) : Except PyError HttpExchange :=
  match c._prepare_session with
  | Except.error e => Except.error e
  | Except.ok cfg =>
    let req : Request :=
      { verb := Verb.put, url := c.base_url ++ path, headers := cfg.headers,
        params := params, body := Body.jsonBody json }
    Except.ok { request := req, response := srv req }

/-- `ResotoClient._patch`: prepare a fresh session and issue a PATCH
with the JSON body. -/
def ResotoClient._patch (c : ResotoClient) (path : String) (json : JsValue) (srv : Server) : Except PyError HttpExchange :=
  match c._prepare_session with
  | Except.error e => Except.error e
  | Except.ok cfg =>
    let req : Request :=
      { verb := Verb.patch, url := c.base_url ++ path, headers := cfg.headers,
        params := none, body := Body.jsonBody json }
    Except.ok { request := req, response := srv req }

/-- `ResotoClient._delete`: prepare a fresh session and issue a DELETE. -/
def ResotoClient._delete (c : ResotoClient) (path : String) (srv : Server) : Except PyError HttpExchange :=
  match c._prepare_session with
  | Except.error e => Except.error e
  | Except.ok cfg =>
    let req : Request :=
      { verb := Verb.delete, url := c.base_url ++ path, headers := cfg.headers,
        params := none, body := Body.noBody }
    Except.ok { request := req, response := srv req }

/-- Modelled from the spec: `graph_to_json`, the payload serializer the
source calls as `self.graph_to_json(update)` in `merge_graph` and
`add_to_batch`, is not present in src. The spec treats the update
payload as opaque JSON that is transported unchanged as the request
body, so the serializer is the plain JSON rendering of the list of
node objects. -/
def graph_to_json (update : List JsObject) : JsValue :=
  JsValue.arr (update.map JsValue.obj)

/-- `ResotoClient.merge_graph`: the source serializes the payload and
then calls `self._get(path, json=js)`; `_get` accepts no `json` keyword
argument, so Python raises `TypeError` at the call site, before any
request is issued. -/
def ResotoClient.merge_graph (c : ResotoClient) (graph : String) (update : List JsObject) (srv : Server) : Except PyError GraphUpdate :=
  let _js := graph_to_json update
  let _path := c.base_url ++ "/graph/" ++ graph ++ "/merge"
  let _unusedServer := srv
  Except.error (PyError.typeError "_get got an unexpected keyword argument json")

/-- The transport call `add_to_batch` performs: a POST of the serialized
payload to the batch merge endpoint, with a `batch_id` query parameter
exactly when the `batch_id` argument is truthy (present and not the
empty string), mirroring the conditional dictionary construction of the
source. -/
def ResotoClient.add_to_batch_call (c : ResotoClient) (graph : String) (update : List JsObject) (batch_id : Option String) (srv : Server) : Except PyError HttpExchange :=
  let js := graph_to_json update
  let props : Option Params :=
    match batch_id with
    | some b => if b = "" then none else some [("batch_id", b)]
    | none => none
  c._post ("/graph/" ++ graph ++ "/batch/merge") js props none srv

/-- `ResotoClient.add_to_batch`: issue the batch merge POST; on status
200 return the pair of the `BatchId` response header (a missing header
raises `KeyError`) and the `GraphUpdate` parsed from the response body;
on any other status raise `AttributeError` carrying the response
text. -/
def ResotoClient.add_to_batch (c : ResotoClient) (graph : String) (update : List JsObject) (batch_id : Option String) (srv : Server) : Except PyError (String × GraphUpdate) :=
  match c.add_to_batch_call graph update batch_id srv with
  | Except.error e => Except.error e
  | Except.ok ex =>
    if ex.response.status_code = 200 then
      match ciLookup ex.response.headers "BatchId" with
      | none => Except.error (PyError.keyError "BatchId")
      | some bid =>
        match loadGraphUpdate ex.response.body with
        | Except.error e => Except.error e
        | Except.ok gu => Except.ok (bid, gu)
    else Except.error (PyError.attributeError ex.response.text)

/-- `ResotoClient.commit_batch`: a `_get` round trip against
`/graph/{graph}/batch/{batch_id}`; on status 200 return `None`, on any
other status raise `AttributeError` carrying the response text. -/
def ResotoClient.commit_batch (c : ResotoClient) (graph : String) (batch_id : String) (srv : Server) : Except PyError Unit :=
  match c._get ("/graph/" ++ graph ++ "/batch/" ++ batch_id) none none srv with
  | Except.error e => Except.error e
  | Except.ok ex =>
    if ex.response.status_code = 200 then Except.ok ()
    else Except.error (PyError.attributeError ex.response.text)

/-- `ResotoClient.abort_batch`: the source body is identical to
`commit_batch` — a `_get` round trip against
`/graph/{graph}/batch/{batch_id}`, returning `None` on status 200 and
raising `AttributeError` with the response text otherwise. -/
def ResotoClient.abort_batch (c : ResotoClient) (graph : String) (batch_id : String) (srv : Server) : Except PyError Unit :=
  match c._get ("/graph/" ++ graph ++ "/batch/" ++ batch_id) none none srv with
  | Except.error e => Except.error e
  | Except.ok ex =>
    if ex.response.status_code = 200 then Except.ok ()
    else Except.error (PyError.attributeError ex.response.text)

/-- `ResotoClient.list_batches`: GET of `/graph/{graph}/batch`; on
status 200 return the JSON body, otherwise raise `AttributeError`. -/
def ResotoClient.list_batches (c : ResotoClient) (graph : String) (srv : Server) : Except PyError JsValue :=
  match c._get ("/graph/" ++ graph ++ "/batch") none none srv with
  | Except.error e => Except.error e
  | Except.ok ex =>
    if ex.response.status_code = 200 then Except.ok ex.response.body
    else Except.error (PyError.attributeError ex.response.text)

/-- `ResotoClient.ping`: GET of `/system/ping`; on status 200 return the
response text, otherwise raise `AttributeError`. -/
def ResotoClient.ping (c : ResotoClient) (srv : Server) : Except PyError String :=
  match c._get "/system/ping" none none srv with
  | Except.error e => Except.error e
  | Except.ok ex =>
    if ex.response.status_code = 200 then Except.ok ex.response.text
    else Except.error (PyError.attributeError ex.response.text)

/-- The embedded public operations of the client (the operations of the
core of the spec: the batch transaction manager plus representative
plumbing calls). -/
inductive Op where
  | mergeGraph : String → List JsObject → Op
  | addToBatch : String → List JsObject → Option String → Op
  | commitBatch : String → String → Op
  | abortBatch : String → String → Op
  | listBatches : String → Op
  | pingOp : Op

/-- Result values of the embedded operations. -/
inductive OpResult where
  | unitR : OpResult
  | strR : String → OpResult
  | jsonR : JsValue → OpResult
  | updateR : GraphUpdate → OpResult
  | batchR : String × GraphUpdate → OpResult

/-- Run one public operation against a client and a server, returning
the client state after the call together with the outcome. Each method
body of the source contains no assignment to `self`, so the translation
of each branch returns the client it was given. -/
def applyOp (op : Op) (c : ResotoClient) (srv : Server) : ResotoClient × Except PyError OpResult :=
  match op with
  | Op.mergeGraph g u => (c, (c.merge_graph g u srv).map OpResult.updateR)
  | Op.addToBatch g u b => (c, (c.add_to_batch g u b srv).map OpResult.batchR)
  | Op.commitBatch g b => (c, (c.commit_batch g b srv).map (fun _ => OpResult.unitR))
  | Op.abortBatch g b => (c, (c.abort_batch g b srv).map (fun _ => OpResult.unitR))
  | Op.listBatches g => (c, (c.list_batches g srv).map OpResult.jsonR)
  | Op.pingOp => (c, (c.ping srv).map OpResult.strR)

/-- A concrete trust anchor resolver used in closed statements. -/
def resolverA : CaResolver := fun _ _ => "certA"

/-- A second concrete trust anchor resolver, differing from
`resolverA`, used to show construction does not depend on the resolver
for non encrypted endpoints. -/
def resolverB : CaResolver := fun _ _ => "certB"

/-- A concrete https client used in witnesses. -/
def cHttps : ResotoClient := ResotoClient.init "https://localhost:8900" (some "secret") resolverA

/-- A concrete JSON body describing a GraphUpdate. -/
def guJson : JsValue :=
  JsValue.obj [("nodes_created", JsValue.num 2), ("nodes_updates", JsValue.num 0),
               ("nodes_deleted", JsValue.num 0), ("edges_created", JsValue.num 1),
               ("edges_updated", JsValue.num 0), ("edges_deleted", JsValue.num 0)]

/-- The GraphUpdate record described by `guJson`. -/
def gu0 : GraphUpdate :=
  { nodes_created := 2, nodes_updates := 0, nodes_deleted := 0,
    edges_created := 1, edges_updated := 0, edges_deleted := 0 }

/-- A concrete server answering every request with status 200, a
`BatchId` header and a GraphUpdate body. -/
def srvOk : Server := fun _ =>
  { status_code := 200, text := "ok", headers := [("BatchId", "b1")], body := guJson }

/-- A concrete server answering every request with status 500 and the
text boom. -/
def srvFail : Server := fun _ =>
  { status_code := 500, text := "boom", headers := [], body := JsValue.null }

/-- C4: the per request header set carries signed authentication
entries derived from the shared secret with an empty claims object
exactly when the secret is configured and non empty; when the secret is
None or the empty string, signing is skipped and the headers are
exactly the base content type and accept entries. -/
theorem psk_controls_signed_headers (c : ResotoClient) :
    (c.psk = none ∨ c.psk = some "" → c._headers = baseHeaders) ∧
    (∀ s : String, c.psk = some s → s ≠ "" → c._headers = encode_jwt_to_headers baseHeaders [] s) := by
  constructor
  · intro h
    rcases h with h | h <;> simp [ResotoClient._headers, h]
  · intro s hs hne
    simp [ResotoClient._headers, hs, hne]

/-- Witness for C4: a client without a secret gets the base headers, a
client with the secret secret gets the signed header set. -/
theorem psk_controls_signed_headers_witness :
    (ResotoClient.init "https://x" none resolverA)._headers = baseHeaders ∧
    cHttps._headers = encode_jwt_to_headers baseHeaders [] "secret" := by
  constructor
  · exact (psk_controls_signed_headers (ResotoClient.init "https://x" none resolverA)).1 (Or.inl rfl)
  · exact (psk_controls_signed_headers cHttps).2 "secret" rfl (by decide)

/-- C1: on a 200 response the stage operation returns the pair of the
BatchId response header value and the GraphUpdate parsed from the
response body; with the batch_id argument omitted the issued request
carries no batch_id query parameter, and with a non empty batch_id
supplied the request carries it as the batch_id query parameter (the
empty string case is the separate edge case of the staging claim about
empty identifiers). -/
theorem add_to_batch_stage_spec (c : ResotoClient) (graph : String)
    (update : List JsObject) (srv : Server) (p bid : String)
    (gu : GraphUpdate) (b : String) (hca : c.ca_cert_path = some p) :
    (∀ (bopt : Option String) (ex : HttpExchange),
        c.add_to_batch_call graph update bopt srv = Except.ok ex →
        ex.response.status_code = 200 →
        ciLookup ex.response.headers "BatchId" = some bid →
        loadGraphUpdate ex.response.body = Except.ok gu →
        c.add_to_batch graph update bopt srv = Except.ok (bid, gu)) ∧
    (c.add_to_batch_call graph update none srv).map (fun ex => ex.request.params) =
      Except.ok none ∧
    (b ≠ "" →
      (c.add_to_batch_call graph update (some b) srv).map (fun ex => ex.request.params) =
        Except.ok (some [("batch_id", b)])) := by
  refine ⟨?_, ?_, ?_⟩
  · intro bopt ex hex h200 hbid hgu
    simp [ResotoClient.add_to_batch, hex, h200, hbid, hgu]
  · simp [ResotoClient.add_to_batch_call, ResotoClient._post, ResotoClient._prepare_session,
          Except.map, hca]
  · intro hb
    simp [ResotoClient.add_to_batch_call, ResotoClient._post, ResotoClient._prepare_session,
          Except.map, hca, hb]

/-- Witness for C1 at a concrete https client and a server answering
200 with header BatchId b1 and a GraphUpdate body. -/
theorem add_to_batch_stage_spec_witness :
    cHttps.add_to_batch "g" [] none srvOk = Except.ok ("b1", gu0) ∧
    (cHttps.add_to_batch_call "g" [] none srvOk).map (fun ex => ex.request.params) =
      Except.ok none ∧
    (cHttps.add_to_batch_call "g" [] (some "b9") srvOk).map (fun ex => ex.request.params) =
      Except.ok (some [("batch_id", "b9")]) := by
  have h := add_to_batch_stage_spec cHttps "g" [] srvOk "certA" "b1" gu0 "b9" rfl
  exact ⟨h.1 none _ rfl rfl rfl rfl, h.2.1, h.2.2 (by decide)⟩

/-- C10: staging with batch_id equal to the empty string issues exactly
the same request and produces exactly the same result as omitting
batch_id entirely: the empty string is falsy in the conditional that
builds the query dictionary, so no batch_id parameter is sent. -/
theorem add_to_batch_empty_string_id (c : ResotoClient) (graph : String)
    (update : List JsObject) (srv : Server) :
    c.add_to_batch_call graph update (some "") srv = c.add_to_batch_call graph update none srv ∧
    c.add_to_batch graph update (some "") srv = c.add_to_batch graph update none srv := by
  have hcall : c.add_to_batch_call graph update (some "") srv =
      c.add_to_batch_call graph update none srv := by
    simp [ResotoClient.add_to_batch_call]
  exact ⟨hcall, by simp [ResotoClient.add_to_batch, hcall]⟩

/-- C2: commit_batch returns None exactly when the response status is
200, the success status of the endpoint, and on any other status it
raises an error carrying the response text instead of silently
succeeding; abort_batch, whose body is identical, behaves the same. -/
theorem commit_abort_success_iff (c : ResotoClient) (g b : String)
    (srv : Server) (ex : HttpExchange)
    (hex : c._get ("/graph/" ++ g ++ "/batch/" ++ b) none none srv = Except.ok ex) :
    (c.commit_batch g b srv = Except.ok () ↔ ex.response.status_code = 200) ∧
    (ex.response.status_code ≠ 200 →
      c.commit_batch g b srv = Except.error (PyError.attributeError ex.response.text)) ∧
    (c.abort_batch g b srv = Except.ok () ↔ ex.response.status_code = 200) ∧
    (ex.response.status_code ≠ 200 →
      c.abort_batch g b srv = Except.error (PyError.attributeError ex.response.text)) := by
  by_cases h200 : ex.response.status_code = 200 <;>
    simp [ResotoClient.commit_batch, ResotoClient.abort_batch, hex, h200]

/-- Witness for C2: committing and aborting against a server that
rejects with status 500 and body boom surfaces an error carrying
boom. -/
theorem commit_abort_success_iff_witness :
    cHttps.commit_batch "g" "b" srvFail = Except.error (PyError.attributeError "boom") ∧
    cHttps.abort_batch "g" "b" srvFail = Except.error (PyError.attributeError "boom") := by
  have h := commit_abort_success_iff cHttps "g" "b" srvFail _ rfl
  exact ⟨h.2.1 (by decide), h.2.2.2 (by decide)⟩

/-- C3: merge_graph never issues a request and never returns a
GraphUpdate: the source passes a json keyword argument to _get, which
accepts no such parameter, so every call raises TypeError at the call
site; accordingly the result does not depend on the server at all. -/
theorem merge_graph_always_type_error (c : ResotoClient) (graph : String)
    (update : List JsObject) (srv srv2 : Server) :
    c.merge_graph graph update srv =
      Except.error (PyError.typeError "_get got an unexpected keyword argument json") ∧
    c.merge_graph graph update srv = c.merge_graph graph update srv2 :=
  ⟨rfl, rfl⟩

/-- C5: constructing a client for a non encrypted endpoint does not
invoke the trust anchor resolver (two different resolvers yield the
same client) and leaves no trust anchor, but a subsequent operation
does not execute normally: it raises AttributeError because __init__
never assigned ca_cert_path for a non https URL. -/
theorem non_https_construction_then_ops_raise :
    ResotoClient.init "http://localhost:8900" none resolverA =
      ResotoClient.init "http://localhost:8900" none resolverB ∧
    (ResotoClient.init "http://localhost:8900" none resolverA).ca_cert_path = none ∧
    (ResotoClient.init "http://localhost:8900" none resolverA).commit_batch "g" "b" srvOk =
      Except.error (PyError.attributeError "ResotoClient object has no attribute ca_cert_path") ∧
    (ResotoClient.init "http://localhost:8900" none resolverA).ping srvOk =
      Except.error (PyError.attributeError "ResotoClient object has no attribute ca_cert_path") := by
  refine ⟨rfl, rfl, rfl, rfl⟩

/-- C6: the _get transport method accepts a caller supplied headers
argument but ignores it entirely — the source calls s.headers.update()
with no argument — so for GET requests the caller headers are never
merged: the call is identical for every headers argument and the issued
request carries exactly the session headers from _headers. -/
theorem get_drops_caller_headers (c : ResotoClient) (path : String)
    (params : Option Params) (hdrs : Option Headers) (srv : Server) :
    c._get path params hdrs srv = c._get path params none srv ∧
    (∀ p : String, c.ca_cert_path = some p →
      (c._get path params hdrs srv).map (fun ex => ex.request.headers) =
        Except.ok c._headers) := by
  constructor
  · rfl
  · intro p hca
    simp [ResotoClient._get, ResotoClient._prepare_session, Except.map, hca]

/-- Witness for C6: the plain text content type override passed to _get
is dropped, the issued request still carries only the base and signed
headers. -/
theorem get_drops_caller_headers_witness :
    cHttps._get "/cli/info" none (some [("Content-Type", "text/plain")]) srvOk =
      cHttps._get "/cli/info" none none srvOk ∧
    (cHttps._get "/cli/info" none (some [("Content-Type", "text/plain")]) srvOk).map
        (fun ex => ex.request.headers) = Except.ok cHttps._headers := by
  have h := get_drops_caller_headers cHttps "/cli/info" none
    (some [("Content-Type", "text/plain")]) srvOk
  exact ⟨h.1, h.2 "certA" rfl⟩

/-- A supporting fact for the transport header merge: _post, in
contrast to _get, merges the caller supplied headers last via
s.headers.update(headers), so on the wire, where header names are case
insensitive and the last writer wins, the caller value overrides the
base content type. -/
theorem post_merges_caller_headers_last (c : ResotoClient) (path : String)
    (json : JsValue) (params : Option Params) (srv : Server)
    (p : String) (hca : c.ca_cert_path = some p) :
    (c._post path json params (some [("Content-Type", "text/plain")]) srv).map
        (fun ex => ex.request.headers) =
      Except.ok (dictUpdate c._headers [("Content-Type", "text/plain")]) := by
  simp [ResotoClient._post, ResotoClient._prepare_session, Except.map, hca]

/-- Witness for the _post header merge fact: at a concrete client the
merged header list ends with the caller entry, so a last writer wins
case insensitive read yields the caller value. -/
theorem post_merges_caller_headers_last_witness :
    (cHttps._post "/cli/execute" JsValue.null none
        (some [("Content-Type", "text/plain")]) srvOk).map
      (fun ex => ex.request.headers) =
      Except.ok (dictUpdate cHttps._headers [("Content-Type", "text/plain")]) :=
  post_merges_caller_headers_last cHttps "/cli/execute" JsValue.null none srvOk "certA" rfl

/-- C7: every transport method — _get, _post, _put, _patch, _delete —
returns, for every server and hence for every response status code, the
raw response the server gave to the request the method built; no
transport method inspects or branches on the status code. -/
theorem transport_returns_raw_response (c : ResotoClient) (path : String)
    (json : JsValue) (params : Option Params) (hdrs : Option Headers)
    (srv : Server) (p : String) (hca : c.ca_cert_path = some p) :
    (∀ ex, c._get path params hdrs srv = Except.ok ex → ex.response = srv ex.request) ∧
    (∀ ex, c._post path json params hdrs srv = Except.ok ex → ex.response = srv ex.request) ∧
    (∀ ex, c._put path json params srv = Except.ok ex → ex.response = srv ex.request) ∧
    (∀ ex, c._patch path json srv = Except.ok ex → ex.response = srv ex.request) ∧
    (∀ ex, c._delete path srv = Except.ok ex → ex.response = srv ex.request) ∧
    (c._get path params hdrs srv).map (fun ex => ex.response.status_code) =
      Except.ok (srv { verb := Verb.get, url := c.base_url ++ path,
                       headers := c._headers, params := params,
                       body := Body.noBody }).status_code := by
  refine ⟨?_, ?_, ?_, ?_, ?_, ?_⟩
  all_goals
    first
    | (intro ex hex
       simp [ResotoClient._get, ResotoClient._post, ResotoClient._put, ResotoClient._patch,
             ResotoClient._delete, ResotoClient._prepare_session, hca] at hex
       simp [← hex])
    | simp [ResotoClient._get, ResotoClient._prepare_session, Except.map, hca]

/-- Witness for C7: against a server that always answers 500 the
transport still returns the response, with its status, rather than
raising. -/
theorem transport_returns_raw_response_witness :
    (cHttps._get "/x" none none srvFail).map (fun ex => ex.response.status_code) =
      Except.ok 500 := by
  have h := transport_returns_raw_response cHttps "/x" JsValue.null none none srvFail
    "certA" rfl
  exact h.2.2.2.2.2

/-- C8: abort_batch does not issue a DELETE equivalent request: its
only round trip is the _get call on the batch path, whose issued
request has verb GET, a read verb, not DELETE; its behaviour is
moreover identical to commit_batch, so the abort request cannot be
distinguished from the commit request by the server. -/
theorem abort_batch_issues_get (c : ResotoClient) (g b : String) (srv : Server) :
    (∀ ex, c._get ("/graph/" ++ g ++ "/batch/" ++ b) none none srv = Except.ok ex →
      ex.request.verb = Verb.get) ∧
    c.abort_batch g b srv = c.commit_batch g b srv ∧
    Verb.get ≠ Verb.delete := by
  refine ⟨?_, ?_, by decide⟩
  · intro ex hex
    cases hcc : c.ca_cert_path with
    | none => simp [ResotoClient._get, ResotoClient._prepare_session, hcc] at hex
    | some p =>
      simp [ResotoClient._get, ResotoClient._prepare_session, hcc] at hex
      simp [← hex]
  · cases hget : c._get ("/graph/" ++ g ++ "/batch/" ++ b) none none srv <;>
      simp [ResotoClient.abort_batch, ResotoClient.commit_batch, hget]

/-- Witness for C8: at a concrete client the request abort_batch sends
carries the verb GET, and abort and commit coincide. -/
theorem abort_batch_issues_get_witness :
    ((cHttps._get ("/graph/" ++ "g" ++ "/batch/" ++ "b1") none none srvOk).map
        fun ex => ex.request.verb) = Except.ok Verb.get ∧
    cHttps.abort_batch "g" "b1" srvOk = cHttps.commit_batch "g" "b1" srvOk := by
  have h := abort_batch_issues_get cHttps "g" "b1" srvOk
  have hv := h.1 _ rfl
  exact ⟨congrArg Except.ok hv, h.2.1⟩

/-- C9: every embedded public operation leaves the fields of the client
— base_url, psk and the trust anchor ca_cert_path — unchanged: no
method body assigns to self, so the client state after any call equals
the state established at construction. -/
theorem public_ops_preserve_client (op : Op) (c : ResotoClient) (srv : Server) :
    (applyOp op c srv).1.base_url = c.base_url ∧
    (applyOp op c srv).1.psk = c.psk ∧
    (applyOp op c srv).1.ca_cert_path = c.ca_cert_path := by
  cases op <;> exact ⟨rfl, rfl, rfl⟩
